import Mathlib

/-!
Verification of the AI-DJ segment-production pipeline.

The development shallowly embeds the pure computational core of the
repository:

* `backend/dj_mix.py` (`create_dj_mix`): the transition-segment timing,
  trim, delay and sidecar-metadata math, over exact rationals;
* `backend/transitions.py` (`apply_bass_swap`): the six-stream gain
  functions of the bass-swap filter graph;
* `backend/orchestration/loop.py` (`DJLoop.run`): one steady-loop
  planning iteration as a state transformer over an abstract
  planning-graph outcome;
* `backend/db.py` (`evict_least_played_songs`) and
  `backend/cache_manager.py`: the cache-eviction pass over a table of
  song rows;
* `backend-test/build_full_mix.py`: the crossfade clamp of the
  standalone mix builders.

Python floats are modelled as `ℚ` (every operation appearing in the
embedded code is exact field arithmetic, `min`/`max`, and `int(...)`
truncation, modelled by `Int.floor` on non-negative values).
-/

namespace AiDj

/-! ### `backend/dj_mix.py` — `create_dj_mix` timing math

Constants fixed in the body of `create_dj_mix`:
`transition_buffer = 20.0`, `song_to_song_overlap = 0.75`,
`song1_lead_in = 12.0`.
-/

/-- Constant `transition_buffer = 20.0` from `create_dj_mix`. -/
def transition_buffer : ℚ := 20

/-- Constant `song_to_song_overlap = 0.75` from `create_dj_mix`. -/
def song_to_song_overlap : ℚ := 3 / 4

/-- Constant `song1_lead_in = 12.0` from `create_dj_mix`. -/
def song1_lead_in : ℚ := 12

/-- The pure timing tuple computed by `create_dj_mix`
(`backend/dj_mix.py`, lines 150–271): transition start, segment window
of song A, trim and handoff of song B, adelay amount, and expected
duration. -/
structure SegmentPlan where
  transition_start : ℚ
  song1_start : ℚ
  song1_segment_duration : ℚ
  segment_transition_pos : ℚ
  crossfade_duration : ℚ
  song2_handoff_start : ℚ
  song2_trim : ℚ
  delay_seconds : ℚ
  delay_ms : ℤ
  handoff_gap : ℚ
  expected_duration : ℚ
  deriving Repr, DecidableEq

/-- Shallow embedding of the timing computation of `create_dj_mix`
(`backend/dj_mix.py`): the two clamps on `transition_start`, the
lead-in window of song A, the handoff/trim of song B including the
`song2_trim < 60` full-song override, the `adelay` milliseconds
(`int(...)` truncation of Python modelled by `Int.floor`, the operand
being non-negative), and the expected segment duration. -/
def create_dj_mix_plan (song1_duration song2_duration : ℚ)
    (t_start : Option ℚ) (xfade_dur : ℚ) : SegmentPlan :=
  let crossfade_duration := xfade_dur
  let ts0 := t_start.getD (song1_duration - transition_buffer - crossfade_duration)
  let ts1 := if ts0 < 20 then 20 else ts0
  let transition_start :=
    if ts1 > song1_duration - crossfade_duration then song1_duration - crossfade_duration
    else ts1
  let song1_start := max 0 (transition_start - song1_lead_in)
  let song1_segment_duration := song1_duration - song1_start
  let segment_transition_pos := transition_start - song1_start
  let song2_next_transition_start := song2_duration - transition_buffer
  let song2_handoff_start := max 0 (song2_next_transition_start - song1_lead_in)
  let song2_trim0 := min (song2_handoff_start + song_to_song_overlap) song2_duration
  let song2_trim := if song2_trim0 < 60 then song2_duration else song2_trim0
  let delay_seconds := max (segment_transition_pos - song_to_song_overlap / 2) 0
  let delay_ms : ℤ := ⌊delay_seconds * 1000⌋
  let handoff_gap := song2_handoff_start - song2_trim
  let expected_duration := max song1_segment_duration (delay_seconds + song2_trim)
  { transition_start := transition_start
    song1_start := song1_start
    song1_segment_duration := song1_segment_duration
    segment_transition_pos := segment_transition_pos
    crossfade_duration := crossfade_duration
    song2_handoff_start := song2_handoff_start
    song2_trim := song2_trim
    delay_seconds := delay_seconds
    delay_ms := delay_ms
    handoff_gap := handoff_gap
    expected_duration := expected_duration }

/-- Claim C1: for `T_A = 210`, `T_B = 200`, `X = 10` (with the coded
constants `L = 12`, `B_end = 20`, `O = 0.75`), `create_dj_mix` computes
`transition_start = 180`, `song1_start = 168`,
`segment_transition_pos = 12`, `delay_ms = 11625`,
`song2_handoff_start = 168`, `song2_trim = 168.75` and
`expected_duration = 180.375`; the tuple is a pure function of the
durations and crossfade alone (the embedding takes no other inputs). -/
theorem create_dj_mix_steady_tabulation :
    (create_dj_mix_plan 210 200 none 10).transition_start = 180 ∧
    (create_dj_mix_plan 210 200 none 10).song1_start = 168 ∧
    (create_dj_mix_plan 210 200 none 10).segment_transition_pos = 12 ∧
    (create_dj_mix_plan 210 200 none 10).delay_ms = 11625 ∧
    (create_dj_mix_plan 210 200 none 10).song2_handoff_start = 168 ∧
    (create_dj_mix_plan 210 200 none 10).song2_trim = 168.75 ∧
    (create_dj_mix_plan 210 200 none 10).expected_duration = 180.375 := by
  norm_num [create_dj_mix_plan, transition_buffer, song_to_song_overlap, song1_lead_in]

/-! ### `create_dj_mix` — sidecar metadata and the render tail -/

/-- Sidecar metadata dictionary `segment_metadata` built by
`create_dj_mix` (lines 293–315); the keys `render.actual_duration` and
`render.handoff_gap` are absent until the render succeeds, hence the
`Option`s. -/
structure SegmentMetadata where
  song1_start : ℚ
  song1_end : ℚ
  song1_transition_start : ℚ
  song1_segment_transition_pos : ℚ
  song2_start : ℚ
  song2_end : ℚ
  song2_handoff_start : ℚ
  song2_overlap_with_next : ℚ
  transition_type : String
  transition_crossfade_duration : ℚ
  transition_delay_ms : ℤ
  transition_start_in_segment : ℚ
  render_expected_duration : ℚ
  render_actual_duration : Option ℚ
  render_handoff_gap : Option ℚ
  deriving Repr, DecidableEq

/-- The `segment_metadata` dictionary as populated before the render
(lines 293–315 of `backend/dj_mix.py`). -/
def segment_metadata (transition_type : String) (p : SegmentPlan) : SegmentMetadata :=
  { song1_start := p.song1_start
    song1_end := p.song1_start + p.song1_segment_duration
    song1_transition_start := p.transition_start
    song1_segment_transition_pos := p.segment_transition_pos
    song2_start := 0
    song2_end := p.song2_trim
    song2_handoff_start := p.song2_handoff_start
    song2_overlap_with_next := song_to_song_overlap
    transition_type := transition_type
    transition_crossfade_duration := p.crossfade_duration
    transition_delay_ms := p.delay_ms
    transition_start_in_segment := p.delay_seconds
    render_expected_duration := p.expected_duration
    render_actual_duration := none
    render_handoff_gap := none }

/-- Return value of `create_dj_mix` on success (the Python dict with
`output_path`, `metadata_path`, `metadata`). -/
structure MixResult where
  output_path : String
  metadata_path : String
  metadata : SegmentMetadata
  deriving Repr, DecidableEq

/-- Observable outcome of the final `try`/`except` block of
`create_dj_mix`: the returned value and the sidecar JSON file written
(path and content), if any. -/
structure RenderTail where
  result : Option MixResult
  sidecar : Option (String × SegmentMetadata)
  deriving Repr, DecidableEq

/-- Shallow embedding of `create_dj_mix` lines 347–385: `run` is the
outcome of the FFmpeg subprocess (`Except.ok output_duration` on
success — `get_duration` itself never raises, it has an internal
fallback — and `Except.error ()` when `ffmpeg.Error` is raised).  On
success the metadata is completed with `actual_duration` and
`handoff_gap = max(handoff_gap, 0)` and written to
`output_path + ".json"`; on error the function returns `None` and
writes nothing. -/
def create_dj_mix_render (transition_type : String) (p : SegmentPlan)
    (output_path : String) (run : Except Unit ℚ) : RenderTail :=
  match run with
  | .ok output_duration =>
      let md := { segment_metadata transition_type p with
                  render_actual_duration := some output_duration
                  render_handoff_gap := some (max p.handoff_gap 0) }
      let metadata_path := output_path ++ ".json"
      { result := some { output_path := output_path, metadata_path := metadata_path, metadata := md }
        sidecar := some (metadata_path, md) }
  | .error _ => { result := none, sidecar := none }

/-- Helper: the handoff gap computed by `create_dj_mix` is never
positive for a non-negative duration of song B. -/
theorem handoff_gap_nonpos (song1_duration song2_duration : ℚ)
    (t_start : Option ℚ) (xfade_dur : ℚ) (hB : 0 ≤ song2_duration) :
    (create_dj_mix_plan song1_duration song2_duration t_start xfade_dur).handoff_gap ≤ 0 := by
  simp only [create_dj_mix_plan, transition_buffer, song_to_song_overlap, song1_lead_in]
  have h1 : max 0 (song2_duration - 20 - 12) - song2_duration ≤ 0 := by
    rcases le_total (song2_duration - 20 - 12) 0 with h | h
    · rw [max_eq_left h]; linarith
    · rw [max_eq_right h]; linarith
  split_ifs with hv
  · linarith
  · rcases min_cases (max 0 (song2_duration - 20 - 12) + 3 / 4) song2_duration with ⟨he, _⟩ | ⟨he, _⟩ <;>
      rw [he] <;> linarith

/-- Claim C2: for every steady render with positive track durations the
handoff gap `song2_handoff_start − song2_trim` is `≤ 0` (so the
warning branch for a positive gap is unreachable), and on a successful
render the persisted sidecar records `handoff_gap` as
`max(handoff_gap, 0)`. -/
theorem handoff_gap_invariant (song1_duration song2_duration : ℚ)
    (t_start : Option ℚ) (xfade_dur : ℚ)
    (hA : 0 < song1_duration) (hB : 0 < song2_duration) :
    (create_dj_mix_plan song1_duration song2_duration t_start xfade_dur).handoff_gap ≤ 0 ∧
    ¬ (create_dj_mix_plan song1_duration song2_duration t_start xfade_dur).handoff_gap > 0 ∧
    ∀ (transition_type path : String) (d : ℚ),
      ∃ md : SegmentMetadata,
        (create_dj_mix_render transition_type
            (create_dj_mix_plan song1_duration song2_duration t_start xfade_dur)
            path (Except.ok d)).sidecar = some (path ++ ".json", md) ∧
        md.render_handoff_gap =
          some (max (create_dj_mix_plan song1_duration song2_duration t_start xfade_dur).handoff_gap 0) := by
  refine ⟨handoff_gap_nonpos _ _ _ _ hB.le, not_lt.mpr (handoff_gap_nonpos _ _ _ _ hB.le), ?_⟩
  intro transition_type path d
  exact ⟨_, rfl, rfl⟩

/-- Witness for C2 at the steady tabulation inputs. -/
theorem handoff_gap_invariant_witness :
    (0:ℚ) < 210 ∧ (0:ℚ) < 200 ∧
    ((create_dj_mix_plan 210 200 none 10).handoff_gap ≤ 0 ∧
     ¬ (create_dj_mix_plan 210 200 none 10).handoff_gap > 0 ∧
     ∀ (transition_type path : String) (d : ℚ),
       ∃ md : SegmentMetadata,
         (create_dj_mix_render transition_type (create_dj_mix_plan 210 200 none 10)
             path (Except.ok d)).sidecar = some (path ++ ".json", md) ∧
         md.render_handoff_gap = some (max (create_dj_mix_plan 210 200 none 10).handoff_gap 0)) :=
  ⟨by norm_num, by norm_num,
   handoff_gap_invariant 210 200 none 10 (by norm_num) (by norm_num)⟩

/-- Claim C10: the sidecar JSON is written only after the FFmpeg render
succeeds — on an `ffmpeg.Error` the function returns `None` and no
sidecar is created, and the sidecar exists if and only if the segment
was successfully rendered (in which case it sits at
`output_path + ".json"`). -/
theorem sidecar_iff_render_success (transition_type : String) (p : SegmentPlan)
    (output_path : String) (run : Except Unit ℚ) :
    ((create_dj_mix_render transition_type p output_path run).sidecar.isSome ↔
      (create_dj_mix_render transition_type p output_path run).result.isSome) ∧
    (run = Except.error () →
      (create_dj_mix_render transition_type p output_path run).result = none ∧
      (create_dj_mix_render transition_type p output_path run).sidecar = none) ∧
    (∀ d : ℚ, run = Except.ok d →
      ∃ md : SegmentMetadata,
        (create_dj_mix_render transition_type p output_path run).sidecar =
          some (output_path ++ ".json", md) ∧
        (create_dj_mix_render transition_type p output_path run).result =
          some { output_path := output_path, metadata_path := output_path ++ ".json",
                 metadata := md }) := by
  cases run with
  | ok d =>
      refine ⟨by simp [create_dj_mix_render], by simp, ?_⟩
      intro d' _
      exact ⟨_, rfl, rfl⟩
  | error e =>
      cases e
      exact ⟨by simp [create_dj_mix_render], fun _ => ⟨rfl, rfl⟩, by simp⟩

/-- Witness for C10: a successful and a failed render at concrete
inputs. -/
theorem sidecar_iff_render_success_witness :
    ((Except.error () : Except Unit ℚ) = Except.error () →
      (create_dj_mix_render "blend" (create_dj_mix_plan 210 200 none 10) "seg.mp3"
          (Except.error ())).result = none ∧
      (create_dj_mix_render "blend" (create_dj_mix_plan 210 200 none 10) "seg.mp3"
          (Except.error ())).sidecar = none) ∧
    (∃ md : SegmentMetadata,
      (create_dj_mix_render "blend" (create_dj_mix_plan 210 200 none 10) "seg.mp3"
          (Except.ok 180)).sidecar = some ("seg.mp3" ++ ".json", md) ∧
      (create_dj_mix_render "blend" (create_dj_mix_plan 210 200 none 10) "seg.mp3"
          (Except.ok 180)).result =
        some { output_path := "seg.mp3", metadata_path := "seg.mp3" ++ ".json",
               metadata := md }) :=
  ⟨(sidecar_iff_render_success "blend" (create_dj_mix_plan 210 200 none 10) "seg.mp3"
      (Except.error ())).2.1,
   (sidecar_iff_render_success "blend" (create_dj_mix_plan 210 200 none 10) "seg.mp3"
      (Except.ok 180)).2.2 180 rfl⟩

/-! ### Claims C5, C6, C7 — trim, delay and transition-start formulas -/

/-- Claim C5, counterexample: for `T_B = 80` the code truncates B at
`song2_trim = 80` (the full song, because the computed trim `48.75` is
below the 60-second override threshold), not at
`min(T_B, handoff_B + O) = 48.75` as the claim states for all
durations. -/
theorem song2_trim_formula_counterexample :
    (create_dj_mix_plan 210 80 none 10).song2_trim = 80 ∧
    min (80:ℚ) (max 0 ((80:ℚ) - 20 - 12) + 3 / 4) = 48.75 ∧
    (80:ℚ) ≠ 48.75 := by
  norm_num [create_dj_mix_plan, transition_buffer, song_to_song_overlap, song1_lead_in]

/-- Claim C5 as amended: `song2_trim = min(T_B, handoff_B + O)` holds
whenever `T_B ≥ 91.25` (equivalently, whenever that value is `≥ 60`);
for `0 < T_B < 91.25` the code overrides the trim and uses the full
song, `song2_trim = T_B`. -/
theorem song2_trim_formula (song1_duration song2_duration : ℚ)
    (t_start : Option ℚ) (xfade_dur : ℚ) :
    (365 / 4 ≤ song2_duration →
      (create_dj_mix_plan song1_duration song2_duration t_start xfade_dur).song2_trim =
        min song2_duration (max 0 (song2_duration - 20 - 12) + 3 / 4)) ∧
    (0 < song2_duration → song2_duration < 365 / 4 →
      (create_dj_mix_plan song1_duration song2_duration t_start xfade_dur).song2_trim =
        song2_duration) := by
  constructor
  · intro hge
    simp only [create_dj_mix_plan, transition_buffer, song_to_song_overlap, song1_lead_in]
    have hmax : max 0 (song2_duration - 20 - 12) = song2_duration - 20 - 12 :=
      max_eq_right (by linarith)
    rw [hmax]
    have hmin : min (song2_duration - 20 - 12 + 3 / 4) song2_duration =
        song2_duration - 20 - 12 + 3 / 4 := min_eq_left (by linarith)
    rw [hmin, if_neg (by linarith), min_eq_right (by linarith)]
  · intro hpos hlt
    simp only [create_dj_mix_plan, transition_buffer, song_to_song_overlap, song1_lead_in]
    rcases le_total (song2_duration - 20 - 12) 0 with h | h
    · rw [max_eq_left h, if_pos]
      rcases min_cases ((0:ℚ) + 3 / 4) song2_duration with ⟨he, _⟩ | ⟨he, _⟩ <;>
        rw [he] <;> linarith
    · rw [max_eq_right h, if_pos]
      rcases min_cases (song2_duration - 20 - 12 + 3 / 4) song2_duration with ⟨he, _⟩ | ⟨he, _⟩ <;>
        rw [he] <;> linarith

/-- Witness for the amended C5 at `T_B = 200` (formula branch) and
`T_B = 80` (full-song branch). -/
theorem song2_trim_formula_witness :
    ((365:ℚ) / 4 ≤ 200 ∧
      (create_dj_mix_plan 210 200 none 10).song2_trim =
        min 200 (max 0 ((200:ℚ) - 20 - 12) + 3 / 4)) ∧
    ((0:ℚ) < 80 ∧ (80:ℚ) < 365 / 4 ∧
      (create_dj_mix_plan 210 80 none 10).song2_trim = 80) :=
  ⟨⟨by norm_num, (song2_trim_formula 210 200 none 10).1 (by norm_num)⟩,
   ⟨by norm_num, by norm_num, (song2_trim_formula 210 80 none 10).2 (by norm_num) (by norm_num)⟩⟩

/-- Claim C6, counterexample: with `T_A = 20` and `X = 9.9993` the
crossfade position is `τ_x = 10.0007`, the exact product
`1000·(τ_x − O/2) = 9625.7`, and the code's `int()` truncation yields
`delay_ms = 9625` while the claimed rounding gives `9626`. -/
theorem delay_ms_rounding_counterexample :
    (create_dj_mix_plan 20 200 none (99993 / 10000)).segment_transition_pos = 100007 / 10000 ∧
    (create_dj_mix_plan 20 200 none (99993 / 10000)).delay_ms = 9625 ∧
    max (round ((1000:ℚ) *
      ((create_dj_mix_plan 20 200 none (99993 / 10000)).segment_transition_pos - 3 / 8))) 0 =
      9626 ∧
    (9625:ℤ) ≠ 9626 := by
  refine ⟨?_, ?_, ?_, by norm_num⟩
  · norm_num [create_dj_mix_plan, transition_buffer, song_to_song_overlap, song1_lead_in]
  · norm_num [create_dj_mix_plan, transition_buffer, song_to_song_overlap, song1_lead_in]
  · rw [round_eq]
    norm_num [create_dj_mix_plan, transition_buffer, song_to_song_overlap, song1_lead_in]

/-- Claim C6 as amended: the delay passed to `adelay` is the *floor*
(Python `int()` truncation of a non-negative value), not the rounding,
of the exact product: `delay_ms = max(⌊1000·(τ_x − O/2)⌋, 0)`, and it
is always non-negative. -/
theorem delay_ms_formula (song1_duration song2_duration : ℚ)
    (t_start : Option ℚ) (xfade_dur : ℚ) :
    (create_dj_mix_plan song1_duration song2_duration t_start xfade_dur).delay_ms =
      max ⌊(1000:ℚ) *
        ((create_dj_mix_plan song1_duration song2_duration t_start xfade_dur).segment_transition_pos
          - 3 / 8)⌋ 0 ∧
    0 ≤ (create_dj_mix_plan song1_duration song2_duration t_start xfade_dur).delay_ms := by
  have key : ∀ τ : ℚ,
      ⌊max (τ - song_to_song_overlap / 2) 0 * 1000⌋ = max ⌊(1000:ℚ) * (τ - 3 / 8)⌋ 0 := by
    intro τ
    have h38 : song_to_song_overlap / 2 = 3 / 8 := by norm_num [song_to_song_overlap]
    rw [h38]
    rcases le_total 0 (τ - 3 / 8) with h | h
    · rw [max_eq_left h, mul_comm, max_eq_left]
      exact Int.floor_nonneg.mpr (by positivity)
    · rw [max_eq_right h, zero_mul, Int.floor_zero, max_eq_right]
      have : (1000:ℚ) * (τ - 3 / 8) ≤ 0 := by nlinarith
      calc ⌊(1000:ℚ) * (τ - 3 / 8)⌋ ≤ ⌊(0:ℚ)⌋ := Int.floor_le_floor this
      _ = 0 := Int.floor_zero
  constructor
  · exact key _
  · have h2 : (create_dj_mix_plan song1_duration song2_duration t_start xfade_dur).delay_ms =
        max ⌊(1000:ℚ) *
          ((create_dj_mix_plan song1_duration song2_duration t_start
              xfade_dur).segment_transition_pos - 3 / 8)⌋ 0 := key _
    rw [h2]
    exact le_max_right _ _

/-- Claim C7, counterexample: with `T_A = 25` and `X = 10` the final
`transition_start` is `15`, which is not in the claimed interval
`[20, T_A − X] = [20, 15]` (it lies below 20). -/
theorem transition_start_range_counterexample :
    (create_dj_mix_plan 25 200 none 10).transition_start = 15 ∧
    ¬ ((20:ℚ) ≤ (create_dj_mix_plan 25 200 none 10).transition_start) := by
  norm_num [create_dj_mix_plan, transition_buffer, song_to_song_overlap, song1_lead_in]

/-- Claim C7 as amended: when no `t_start` is supplied and the default
`T_A − B_end − X` is at least 20, the transition start equals that
default; the final value lies in `[20, T_A − X]` whenever that
interval is non-empty (`T_A − X ≥ 20`); when `T_A − X < 20` the second
clamp forces `transition_start = T_A − X < 20` and the render still
proceeds (the computation is total — no branch aborts). -/
theorem transition_start_range (song1_duration song2_duration : ℚ)
    (t_start : Option ℚ) (xfade_dur : ℚ) :
    (20 ≤ song1_duration - xfade_dur →
      20 ≤ (create_dj_mix_plan song1_duration song2_duration t_start xfade_dur).transition_start ∧
      (create_dj_mix_plan song1_duration song2_duration t_start xfade_dur).transition_start ≤
        song1_duration - xfade_dur) ∧
    (song1_duration - xfade_dur < 20 →
      (create_dj_mix_plan song1_duration song2_duration t_start xfade_dur).transition_start =
        song1_duration - xfade_dur) ∧
    (t_start = none → 20 ≤ song1_duration - 20 - xfade_dur →
      (create_dj_mix_plan song1_duration song2_duration t_start xfade_dur).transition_start =
        song1_duration - 20 - xfade_dur) := by
  refine ⟨?_, ?_, ?_⟩
  · intro h
    simp only [create_dj_mix_plan, transition_buffer, song_to_song_overlap, song1_lead_in]
    split_ifs <;> constructor <;> linarith
  · intro h
    simp only [create_dj_mix_plan, transition_buffer, song_to_song_overlap, song1_lead_in]
    split_ifs <;> linarith
  · rintro rfl h
    simp only [create_dj_mix_plan, transition_buffer, song_to_song_overlap, song1_lead_in,
      Option.getD_none]
    have h1 : ¬ (song1_duration - 20 - xfade_dur < 20) := not_lt.mpr (by linarith)
    rw [if_neg h1]
    have h2 : ¬ (song1_duration - 20 - xfade_dur > song1_duration - xfade_dur) :=
      not_lt.mpr (by linarith)
    rw [if_neg h2]

/-- Witness for the amended C7: the in-range branch at
`T_A = 210, X = 10`, the short-track branch at `T_A = 25, X = 10`, and
the default-formula branch at `T_A = 210, X = 10` with no supplied
start. -/
theorem transition_start_range_witness :
    ((20:ℚ) ≤ 210 - 10 ∧
      20 ≤ (create_dj_mix_plan 210 200 none 10).transition_start ∧
      (create_dj_mix_plan 210 200 none 10).transition_start ≤ 210 - 10) ∧
    ((25:ℚ) - 10 < 20 ∧
      (create_dj_mix_plan 25 200 none 10).transition_start = 25 - 10) ∧
    ((20:ℚ) ≤ 210 - 20 - 10 ∧
      (create_dj_mix_plan 210 200 none 10).transition_start = 210 - 20 - 10) :=
  ⟨⟨by norm_num, (transition_start_range 210 200 none 10).1 (by norm_num)⟩,
   ⟨by norm_num, (transition_start_range 25 200 none 10).2.1 (by norm_num)⟩,
   ⟨by norm_num, (transition_start_range 210 200 none 10).2.2 rfl (by norm_num)⟩⟩

/-! ### Claim C4 — crossfade bounds

`create_dj_mix` uses `crossfade_duration = xfade_dur` with no clamping
whatsoever (`backend/dj_mix.py` line 151), and `analyze_tracks`
(`backend/ai_analyzer.py`) returns the planner's JSON unvalidated.  The
`0.05`-margin guardrail of the spec exists only in the standalone mix
builders `backend-test/build_full_mix.py` (lines 74–76) and
`backend-test/build_full_mix_ffmpeg_python.py` (lines 81–83). -/

/-- Crossfade guardrail of `backend-test/build_full_mix.py`:
`cf = max(0.05, crossfade_sec)` followed by
`cf = min(cf, max(0.05, dur_a - 0.05), max(0.05, dur_b - 0.05))`. -/
def build_full_mix_cf (crossfade_sec dur_a dur_b : ℚ) : ℚ :=
  min (min (max (1 / 20) crossfade_sec) (max (1 / 20) (dur_a - 1 / 20)))
    (max (1 / 20) (dur_b - 1 / 20))

/-- Claim C4, counterexample: a render with `T_A = T_B = 100` and a
requested crossfade of `200` uses `X = 200` in the filter graph — the
bound `X ≤ min(T_A, T_B) − 0.05` is violated and no clamping happens
in `create_dj_mix`. -/
theorem crossfade_used_unclamped_counterexample :
    (create_dj_mix_plan 100 100 none 200).crossfade_duration = 200 ∧
    ¬ ((create_dj_mix_plan 100 100 none 200).crossfade_duration ≤ min (100:ℚ) 100 - 1 / 20) := by
  norm_num [create_dj_mix_plan]

/-- Claim C4 as amended: the steady render path (`create_dj_mix`)
applies no clamping at all — the crossfade used is exactly the
requested `xfade_dur`; the `0.05`-margin clamp exists only in the
standalone builders (`build_full_mix`), where the clamped value always
satisfies `cf ≥ 0.05` and, whenever both durations are at least
`0.1`, also `cf ≤ min(dur_a, dur_b) − 0.05`. -/
theorem crossfade_clamp (song1_duration song2_duration : ℚ) (t_start : Option ℚ)
    (xfade_dur : ℚ) (crossfade_sec dur_a dur_b : ℚ) :
    (create_dj_mix_plan song1_duration song2_duration t_start xfade_dur).crossfade_duration =
      xfade_dur ∧
    1 / 20 ≤ build_full_mix_cf crossfade_sec dur_a dur_b ∧
    (1 / 10 ≤ dur_a → 1 / 10 ≤ dur_b →
      build_full_mix_cf crossfade_sec dur_a dur_b ≤ min dur_a dur_b - 1 / 20) := by
  refine ⟨rfl, ?_, ?_⟩
  · exact le_min (le_min (le_max_left _ _) (le_max_left _ _)) (le_max_left _ _)
  · intro ha hb
    have h2 : build_full_mix_cf crossfade_sec dur_a dur_b ≤ max (1 / 20) (dur_a - 1 / 20) :=
      (min_le_left _ _).trans (min_le_right _ _)
    have h3 : build_full_mix_cf crossfade_sec dur_a dur_b ≤ max (1 / 20) (dur_b - 1 / 20) :=
      min_le_right _ _
    rw [max_eq_right (by linarith)] at h2
    rw [max_eq_right (by linarith)] at h3
    rcases le_total dur_a dur_b with h | h
    · rw [min_eq_left h]; linarith
    · rw [min_eq_right h]; linarith

/-- Witness for the amended C4 at the steady tabulation inputs and a
one-second pair of inputs for the standalone clamp. -/
theorem crossfade_clamp_witness :
    (create_dj_mix_plan 210 200 none 10).crossfade_duration = 10 ∧
    ((1:ℚ) / 10 ≤ 1 ∧ build_full_mix_cf 8 1 1 ≤ min 1 1 - 1 / 20) :=
  ⟨(crossfade_clamp 210 200 none 10 8 1 1).1,
   ⟨by norm_num, (crossfade_clamp 210 200 none 10 8 1 1).2.2 (by norm_num) (by norm_num)⟩⟩

/-! ### `backend/transitions.py` — `apply_bass_swap`

FFmpeg's `between(t,a,b)` is inclusive on both endpoints; `lt`/`gt`
are strict.  `apply_bass_swap` receives `peak_time` from
`create_dj_mix` as `swap_time = segment_transition_pos +
crossfade_duration / 2` (line 278). -/

/-- FFmpeg expression `between(t, a, b)`: `a ≤ t ≤ b`, inclusive. -/
abbrev ffmpeg_between (t a b : ℚ) : Prop := a ≤ t ∧ t ≤ b

/-- Time-dependent gains of the six streams built by
`apply_bass_swap` (`backend/transitions.py`, lines 27–86): volume
filter expressions applied to the low/high/clean copies of each
track. -/
structure BassSwapGains where
  a1_high_v : ℚ → ℚ
  a1_low_v : ℚ → ℚ
  a1_clean_v : ℚ → ℚ
  a2_high_v : ℚ → ℚ
  a2_low_v : ℚ → ℚ
  a2_clean_v : ℚ → ℚ

/-- Shallow embedding of the gain expressions of `apply_bass_swap`
with `fade_start = peak_time - duration/2` and
`fade_end = peak_time + duration/2`. -/
def apply_bass_swap (duration peak_time : ℚ) : BassSwapGains :=
  let fade_start := peak_time - duration / 2
  let fade_end := peak_time + duration / 2
  { a1_high_v := fun t =>
      if ffmpeg_between t fade_start fade_end then (fade_end - t) / duration else 0
    a1_low_v := fun t => if ffmpeg_between t fade_start peak_time then 1 else 0
    a1_clean_v := fun t => if t < fade_start then 1 else 0
    a2_high_v := fun t =>
      if ffmpeg_between t fade_start fade_end then (t - fade_start) / duration else 0
    a2_low_v := fun t => if ffmpeg_between t peak_time fade_end then 1 else 0
    a2_clean_v := fun t => if fade_end < t then 1 else 0 }

/-- The six gain-shaped streams in the order handed to the final
`amix` with `inputs=6`, `duration=longest`, `normalize=0`. -/
def bass_swap_streams (duration peak_time : ℚ) : List (ℚ → ℚ) :=
  [(apply_bass_swap duration peak_time).a1_clean_v,
   (apply_bass_swap duration peak_time).a1_high_v,
   (apply_bass_swap duration peak_time).a1_low_v,
   (apply_bass_swap duration peak_time).a2_clean_v,
   (apply_bass_swap duration peak_time).a2_high_v,
   (apply_bass_swap duration peak_time).a2_low_v]

/-- The `swap_time` argument computed by `create_dj_mix` for the
`bass_swap` branch (line 278). -/
def bass_swap_peak (p : SegmentPlan) : ℚ :=
  p.segment_transition_pos + p.crossfade_duration / 2

/-- Claim C8: for a bass-swap render with crossfade `X` and segment
transition position `τ_x`, the peak passed from `create_dj_mix` is
`τ_x + X/2`, giving `fade_start = τ_x` and `fade_end = τ_x + X`; the
A-low gain is 1 exactly on `[fade_start, peak]`, the B-low gain 1
exactly on `[peak, fade_end]`, clean A is audible only strictly before
`fade_start`, clean B only strictly after `fade_end`, the two high
streams fade linearly and complementarily across
`[fade_start, fade_end]`, and all six streams are handed to the mixer. -/
theorem bass_swap_six_streams (X τ : ℚ) (hX : 0 < X) :
    (∀ p : SegmentPlan, bass_swap_peak p = p.segment_transition_pos + p.crossfade_duration / 2) ∧
    (∀ t, τ ≤ t → t ≤ τ + X / 2 → (apply_bass_swap X (τ + X / 2)).a1_low_v t = 1) ∧
    (∀ t, t < τ ∨ τ + X / 2 < t → (apply_bass_swap X (τ + X / 2)).a1_low_v t = 0) ∧
    (∀ t, τ + X / 2 ≤ t → t ≤ τ + X → (apply_bass_swap X (τ + X / 2)).a2_low_v t = 1) ∧
    (∀ t, t < τ + X / 2 ∨ τ + X < t → (apply_bass_swap X (τ + X / 2)).a2_low_v t = 0) ∧
    (∀ t, t < τ → (apply_bass_swap X (τ + X / 2)).a1_clean_v t = 1) ∧
    (∀ t, τ ≤ t → (apply_bass_swap X (τ + X / 2)).a1_clean_v t = 0) ∧
    (∀ t, τ + X < t → (apply_bass_swap X (τ + X / 2)).a2_clean_v t = 1) ∧
    (∀ t, t ≤ τ + X → (apply_bass_swap X (τ + X / 2)).a2_clean_v t = 0) ∧
    (∀ t, τ ≤ t → t ≤ τ + X →
      (apply_bass_swap X (τ + X / 2)).a1_high_v t = (τ + X - t) / X ∧
      (apply_bass_swap X (τ + X / 2)).a2_high_v t = (t - τ) / X ∧
      (apply_bass_swap X (τ + X / 2)).a1_high_v t +
        (apply_bass_swap X (τ + X / 2)).a2_high_v t = 1) ∧
    (∀ t, t < τ ∨ τ + X < t →
      (apply_bass_swap X (τ + X / 2)).a1_high_v t = 0 ∧
      (apply_bass_swap X (τ + X / 2)).a2_high_v t = 0) ∧
    (apply_bass_swap X (τ + X / 2)).a1_high_v τ = 1 ∧
    (apply_bass_swap X (τ + X / 2)).a1_high_v (τ + X) = 0 ∧
    (apply_bass_swap X (τ + X / 2)).a2_high_v τ = 0 ∧
    (apply_bass_swap X (τ + X / 2)).a2_high_v (τ + X) = 1 ∧
    bass_swap_streams X (τ + X / 2) =
      [(apply_bass_swap X (τ + X / 2)).a1_clean_v, (apply_bass_swap X (τ + X / 2)).a1_high_v,
       (apply_bass_swap X (τ + X / 2)).a1_low_v, (apply_bass_swap X (τ + X / 2)).a2_clean_v,
       (apply_bass_swap X (τ + X / 2)).a2_high_v, (apply_bass_swap X (τ + X / 2)).a2_low_v] ∧
    (bass_swap_streams X (τ + X / 2)).length = 6 := by
  have hX0 : X ≠ 0 := ne_of_gt hX
  simp only [apply_bass_swap, ffmpeg_between]
  refine ⟨fun p => rfl, ?_, ?_, ?_, ?_, ?_, ?_, ?_, ?_, ?_, ?_, ?_, ?_, ?_, ?_, rfl, rfl⟩
  · intro t h1 h2
    exact if_pos ⟨by linarith, by linarith⟩
  · intro t h
    rcases h with h | h <;> exact if_neg (by rintro ⟨h1, h2⟩; linarith)
  · intro t h1 h2
    exact if_pos ⟨by linarith, by linarith⟩
  · intro t h
    rcases h with h | h <;> exact if_neg (by rintro ⟨h1, h2⟩; linarith)
  · intro t h
    exact if_pos (by linarith)
  · intro t h
    exact if_neg (not_lt.mpr (by linarith))
  · intro t h
    exact if_pos (by linarith)
  · intro t h
    exact if_neg (not_lt.mpr (by linarith))
  · intro t h1 h2
    have hc : τ + X / 2 - X / 2 ≤ t ∧ t ≤ τ + X / 2 + X / 2 := ⟨by linarith, by linarith⟩
    refine ⟨?_, ?_, ?_⟩
    · rw [if_pos hc, show τ + X / 2 + X / 2 - t = τ + X - t by ring]
    · rw [if_pos hc, show t - (τ + X / 2 - X / 2) = t - τ by ring]
    · rw [if_pos hc, if_pos hc, div_add_div_same,
        show τ + X / 2 + X / 2 - t + (t - (τ + X / 2 - X / 2)) = X by ring]
      exact div_self hX0
  · intro t h
    refine ⟨?_, ?_⟩ <;> rcases h with h | h <;>
      exact if_neg (by rintro ⟨h1, h2⟩; linarith)
  · rw [if_pos ⟨by linarith, by linarith⟩, show τ + X / 2 + X / 2 - τ = X by ring]
    exact div_self hX0
  · rw [if_pos ⟨by linarith, by linarith⟩, show τ + X / 2 + X / 2 - (τ + X) = 0 by ring]
    exact zero_div X
  · rw [if_pos ⟨by linarith, by linarith⟩, show τ - (τ + X / 2 - X / 2) = 0 by ring]
    exact zero_div X
  · rw [if_pos ⟨by linarith, by linarith⟩, show τ + X - (τ + X / 2 - X / 2) = X by ring]
    exact div_self hX0

/-- Witness for C8 at `X = 8`, `τ_x = 12` (`peak = 16`): the A-low
gain is 1 at `t = 14` and 0 at `t = 16.0001`. -/
theorem bass_swap_six_streams_witness :
    (0:ℚ) < 8 ∧
    (apply_bass_swap 8 (12 + 8 / 2)).a1_low_v 14 = 1 ∧
    (apply_bass_swap 8 (12 + 8 / 2)).a1_low_v (16.0001 : ℚ) = 0 := by
  refine ⟨by norm_num, ?_, ?_⟩
  · exact (bass_swap_six_streams 8 12 (by norm_num)).2.1 14 (by norm_num) (by norm_num)
  · exact (bass_swap_six_streams 8 12 (by norm_num)).2.2.1 (16.0001 : ℚ)
      (Or.inr (by norm_num))

/-! ### `backend/orchestration/loop.py` — one steady-loop planning iteration -/

/-- Mutable state of `DJLoop.run` touched by a steady planning
iteration (lines 119–229 of `loop.py`). -/
structure LoopState where
  planning_cooldown : ℚ
  segment_queue : List String
  segments_rendered : List String
  segments_planned : ℕ
  urgent_segment_needed : Bool
  last_planning_time : ℚ
  deriving Repr, DecidableEq

/-- Initial cooldown `planning_cooldown = 5` (line 122). -/
def initial_planning_cooldown : ℚ := 5

/-- Outcome of `planning_graph.ainvoke` as observed by the loop: an
exception, or a result dict carrying an optional
`rendered_segment_path` (together with the value of
`os.path.exists` on it) and an optional `selected_song_uuid`. -/
inductive GraphOutcome where
  | raised : GraphOutcome
  | completed (rendered_segment_path : Option String) (path_exists : Bool)
      (selected_song_uuid : Option String) : GraphOutcome
  deriving Repr, DecidableEq

/-- Cooldown widening `min(120, planning_cooldown * 1.5)` (lines 216
and 222). -/
def widen_cooldown (c : ℚ) : ℚ := min 120 (c * (3 / 2))

/-- One planning pass of the steady loop (`loop.py` lines 140–222),
given that the `can_plan` gate fired: the urgent flag is cleared and
`last_planning_time` updated before the graph is invoked; if the
graph completes with an existing rendered path the segment is
enqueued, counted, and `planning_cooldown` is set to 3; afterwards
the cooldown is widened exactly when no song was selected; if the
graph raises, the cooldown is widened in the exception handler. -/
def plan_iteration (st : LoopState) (now : ℚ) (outcome : GraphOutcome) : LoopState :=
  let st0 := { st with urgent_segment_needed := false, last_planning_time := now }
  match outcome with
  | .raised => { st0 with planning_cooldown := widen_cooldown st0.planning_cooldown }
  | .completed rendered path_exists selected =>
      let st1 :=
        match rendered, path_exists with
        | some p, true =>
            { st0 with segment_queue := st0.segment_queue ++ [p]
                       segments_rendered := st0.segments_rendered ++ [p]
                       segments_planned := st0.segments_planned + 1
                       planning_cooldown := 3 }
        | _, _ => st0
      if selected.isNone then
        { st1 with planning_cooldown := widen_cooldown st1.planning_cooldown }
      else st1

/-- `n` consecutive planning passes in which the graph completes with
no selected song and nothing rendered (the scheduler-starvation
scenario: the metadata provider returns empty). -/
def failed_iterations : ℕ → LoopState → LoopState
  | 0, st => st
  | n + 1, st => plan_iteration (failed_iterations n st) 0 (.completed none false none)

/-- Helper: widening commutes with the 120 cap. -/
theorem widen_cooldown_min (x : ℚ) :
    widen_cooldown (min 120 x) = min 120 (x * (3 / 2)) := by
  unfold widen_cooldown
  rcases le_total x 120 with h | h
  · rw [min_eq_right h]
  · rw [min_eq_left h, min_eq_left (by norm_num : (120:ℚ) ≤ 120 * (3 / 2)),
      min_eq_left (by linarith : (120:ℚ) ≤ x * (3 / 2))]

/-- Helper: after `n` no-selection failures from a cooldown of 5 the
cooldown is `min 120 (5 · 1.5^n)` and the queue is untouched. -/
theorem failed_iterations_cooldown (st : LoopState) (h5 : st.planning_cooldown = 5) :
    ∀ n : ℕ,
      (failed_iterations n st).planning_cooldown = min 120 (5 * (3 / 2) ^ n) ∧
      (failed_iterations n st).segment_queue = st.segment_queue := by
  intro n
  induction n with
  | zero =>
      refine ⟨?_, rfl⟩
      rw [failed_iterations, h5, pow_zero, mul_one, min_eq_right (by norm_num)]
  | succ n ih =>
      obtain ⟨hc, hq⟩ := ih
      constructor
      · show widen_cooldown (failed_iterations n st).planning_cooldown = _
        rw [hc, widen_cooldown_min, pow_succ, mul_assoc]
      · exact hq

/-- Claim C3, counterexample: an iteration in which the graph
completes with a selected song but no rendered segment enqueues
nothing (as claimed) but leaves the cooldown at 5 instead of widening
it to `min(120, 5·1.5) = 7.5`. -/
theorem cooldown_on_failed_render_counterexample :
    (plan_iteration ⟨5, [], [], 0, false, 0⟩ 1
        (.completed none false (some "u"))).planning_cooldown = 5 ∧
    (plan_iteration ⟨5, [], [], 0, false, 0⟩ 1
        (.completed none false (some "u"))).segment_queue = [] ∧
    (5:ℚ) ≠ min 120 (5 * (3 / 2)) := by
  refine ⟨rfl, rfl, ?_⟩
  rw [min_eq_right (by norm_num : (5:ℚ) * (3 / 2) ≤ 120)]
  norm_num

/-- Claim C3 as amended: on success (rendered path exists, song
selected) the segment is enqueued and the cooldown is set to 3; when
the graph raises, or completes with no selected song, the cooldown
becomes `min(120, cooldown·1.5)` and nothing is enqueued; when it
completes with a selected song but no rendered segment, nothing is
enqueued and the cooldown is left unchanged; starting from the
initial cooldown of 5, repeated no-selection failures produce
`min(120, 5·1.5^n)`, i.e. `5, 7.5, 11.25, …` capped at 120. -/
theorem cooldown_policy (st : LoopState) (now : ℚ) :
    (∀ p u : String,
      (plan_iteration st now (.completed (some p) true (some u))).segment_queue =
        st.segment_queue ++ [p] ∧
      (plan_iteration st now (.completed (some p) true (some u))).segments_planned =
        st.segments_planned + 1 ∧
      (plan_iteration st now (.completed (some p) true (some u))).planning_cooldown = 3) ∧
    ((plan_iteration st now .raised).segment_queue = st.segment_queue ∧
      (plan_iteration st now .raised).planning_cooldown =
        min 120 (st.planning_cooldown * (3 / 2))) ∧
    (∀ ex : Bool,
      (plan_iteration st now (.completed none ex none)).segment_queue = st.segment_queue ∧
      (plan_iteration st now (.completed none ex none)).planning_cooldown =
        min 120 (st.planning_cooldown * (3 / 2))) ∧
    (∀ (ex : Bool) (u : String),
      (plan_iteration st now (.completed none ex (some u))).segment_queue = st.segment_queue ∧
      (plan_iteration st now (.completed none ex (some u))).planning_cooldown =
        st.planning_cooldown) ∧
    initial_planning_cooldown = 5 ∧
    (st.planning_cooldown = 5 → ∀ n : ℕ,
      (failed_iterations n st).planning_cooldown = min 120 (5 * (3 / 2) ^ n) ∧
      (failed_iterations n st).planning_cooldown ≤ 120 ∧
      (failed_iterations n st).segment_queue = st.segment_queue) ∧
    min (120:ℚ) (5 * (3 / 2) ^ 0) = 5 ∧
    min (120:ℚ) (5 * (3 / 2) ^ 1) = 7.5 ∧
    min (120:ℚ) (5 * (3 / 2) ^ 2) = 11.25 ∧
    min (120:ℚ) (5 * (3 / 2) ^ 8) = 120 := by
  refine ⟨fun p u => ⟨rfl, rfl, rfl⟩, ⟨rfl, rfl⟩, fun ex => ⟨rfl, rfl⟩,
    fun ex u => ⟨rfl, rfl⟩, rfl, ?_, ?_, ?_, ?_, ?_⟩
  · intro h5 n
    obtain ⟨hc, hq⟩ := failed_iterations_cooldown st h5 n
    exact ⟨hc, hc ▸ min_le_left _ _, hq⟩
  · rw [pow_zero, mul_one]
    exact min_eq_right (by norm_num)
  · rw [pow_one, min_eq_right (by norm_num)]
    norm_num
  · rw [min_eq_right (by norm_num)]
    norm_num
  · rw [min_eq_left (by norm_num)]

/-- Witness for the amended C3 at a concrete state with cooldown 5 and
a one-element queue. -/
theorem cooldown_policy_witness :
    ((plan_iteration ⟨5, ["s0"], [], 0, false, 0⟩ 2
        (.completed (some "p") true (some "u"))).segment_queue = ["s0"] ++ ["p"] ∧
      (plan_iteration ⟨5, ["s0"], [], 0, false, 0⟩ 2
        (.completed (some "p") true (some "u"))).planning_cooldown = 3) ∧
    ((5:ℚ) = 5 ∧
      (failed_iterations 2 ⟨5, ["s0"], [], 0, false, 0⟩).planning_cooldown =
        min 120 (5 * (3 / 2) ^ 2)) := by
  obtain ⟨hsucc, _, _, _, _, hseq, _⟩ := cooldown_policy ⟨5, ["s0"], [], 0, false, 0⟩ 2
  exact ⟨⟨(hsucc "p" "u").1, (hsucc "p" "u").2.2⟩, ⟨rfl, (hseq rfl 2).1⟩⟩

/-! ### `backend/db.py` — cache eviction

`evict_least_played_songs` walks the cached rows in ascending
`(play_count, last_played_at)` order (SQLite sorts `NULL` before every
value in `ASC`), deleting files and nulling `local_path` /
`filesize_bytes` until the running size is at or below the target.
`last_played_at` is an ISO-8601 text column compared bytewise by
SQLite; we model timestamps by an order-preserving abstraction into
`ℕ`, with SQL `NULL` as `none`. -/

/-- Row of the `songs` table (columns used by the cache machinery of
`backend/db.py`). -/
structure Song where
  uuid : String
  local_path : Option String
  filesize_bytes : Option ℤ
  play_count : ℤ
  last_played_at : Option ℕ
  deriving Repr, DecidableEq

/-- `CACHE_MAX_BYTES = 50_000_000_000` from `backend/config.py`. -/
def CACHE_MAX_BYTES : ℤ := 50000000000

/-- `local_path IS NOT NULL` — the row is cached. -/
def is_cached (s : Song) : Bool := s.local_path.isSome

/-- Sum of `filesize_bytes` over a list of rows, SQL-style: a `NULL`
summand contributes nothing. -/
def fs_sum (l : List Song) : ℤ := (l.map fun s => s.filesize_bytes.getD 0).sum

/-- `get_cache_size`: `SELECT SUM(filesize_bytes) FROM songs WHERE
local_path IS NOT NULL`, with `NULL`/empty total mapped to 0. -/
def get_cache_size (tbl : List Song) : ℤ := fs_sum (tbl.filter fun s => is_cached s)

/-- Sort key of the eviction query: ascending
`(play_count, last_played_at)` with `NULL` timestamps smallest. -/
def eviction_key (s : Song) : ℤ ×ₗ WithBot ℕ :=
  toLex (s.play_count, match s.last_played_at with
    | none => (⊥ : WithBot ℕ)
    | some t => (t : WithBot ℕ))

/-- Row comparison realising `ORDER BY play_count ASC,
last_played_at ASC`. -/
def eviction_le (a b : Song) : Prop := eviction_key a ≤ eviction_key b

instance : DecidableRel eviction_le :=
  fun a b => inferInstanceAs (Decidable (eviction_key a ≤ eviction_key b))

instance : IsTotal Song eviction_le :=
  ⟨fun a b => le_total (eviction_key a) (eviction_key b)⟩

instance : IsTrans Song eviction_le :=
  ⟨fun _ _ _ hab hbc => le_trans hab hbc⟩

/-- The eviction cursor query: cached rows in ascending eviction
order. -/
def eviction_candidates (tbl : List Song) : List Song :=
  List.insertionSort eviction_le (tbl.filter fun s => is_cached s)

/-- The cursor loop of `evict_least_played_songs`: traverse candidate
rows while `current_size > target_bytes`, subtracting
`filesize_bytes or 0` for each evicted row; returns the evicted rows
and the rows never reached. -/
def evict_loop (target_bytes : ℤ) : List Song → ℤ → List Song × List Song
  | [], _ => ([], [])
  | r :: rest, current_size =>
      if current_size ≤ target_bytes then ([], r :: rest)
      else
        let x := evict_loop target_bytes rest (current_size - r.filesize_bytes.getD 0)
        (r :: x.1, x.2)

/-- `UPDATE songs SET local_path = NULL, filesize_bytes = NULL`. -/
def null_out (s : Song) : Song := { s with local_path := none, filesize_bytes := none }

/-- `evict_least_played_songs(target_bytes)`: early return when the
cache is already within budget, otherwise run the cursor loop and
null out the evicted rows; returns the evicted uuids and the updated
table. -/
def evict_least_played_songs (tbl : List Song) (target_bytes : ℤ) :
    List String × List Song :=
  if get_cache_size tbl ≤ target_bytes then ([], tbl)
  else
    let evicted := (evict_loop target_bytes (eviction_candidates tbl) (get_cache_size tbl)).1
    let uuids := evicted.map fun s => s.uuid
    (uuids, tbl.map fun s => if s.uuid ∈ uuids then null_out s else s)

/-- Helper: `fs_sum` distributes over append. -/
theorem fs_sum_append (l₁ l₂ : List Song) : fs_sum (l₁ ++ l₂) = fs_sum l₁ + fs_sum l₂ := by
  simp [fs_sum]

/-- Helper: the evicted rows followed by the untouched rows recompose
the candidate list. -/
theorem evict_loop_append (t : ℤ) (rows : List Song) : ∀ cur : ℤ,
    (evict_loop t rows cur).1 ++ (evict_loop t rows cur).2 = rows := by
  induction rows with
  | nil => intro cur; rfl
  | cons r rest ih =>
      intro cur
      by_cases h : cur ≤ t
      · simp [evict_loop, if_pos h]
      · simp only [evict_loop, if_neg h, List.cons_append]
        rw [ih]

/-- Helper: the loop stops only when the candidates are exhausted or
the running size has reached the target. -/
theorem evict_loop_stops (t : ℤ) (rows : List Song) : ∀ cur : ℤ,
    (evict_loop t rows cur).2 = [] ∨ cur - fs_sum (evict_loop t rows cur).1 ≤ t := by
  induction rows with
  | nil => intro cur; exact Or.inl rfl
  | cons r rest ih =>
      intro cur
      by_cases h : cur ≤ t
      · right
        simp only [evict_loop, if_pos h, fs_sum, List.map_nil, List.sum_nil]
        omega
      · rcases ih (cur - r.filesize_bytes.getD 0) with h2 | h2
        · left
          simpa [evict_loop, if_neg h] using h2
        · right
          simp only [evict_loop, if_neg h, fs_sum, List.map_cons, List.sum_cons]
          simp only [fs_sum] at h2
          omega

/-- Helper: `fs_sum` is invariant under permutation. -/
theorem fs_sum_perm {l₁ l₂ : List Song} (h : l₁.Perm l₂) : fs_sum l₁ = fs_sum l₂ := by
  unfold fs_sum
  exact (h.map fun s => s.filesize_bytes.getD 0).sum_eq

/-- Helper: nulling out the rows with evicted uuids leaves exactly the
cached rows whose uuid was not evicted contributing to the cache
size. -/
theorem cache_size_map_null (uuids : List String) (tbl : List Song) :
    get_cache_size (tbl.map fun s => if s.uuid ∈ uuids then null_out s else s) =
      fs_sum (tbl.filter fun s => is_cached s && !(decide (s.uuid ∈ uuids))) := by
  unfold get_cache_size
  rw [List.filter_map]
  have hf : List.filter
        ((fun s => is_cached s) ∘ fun s => if s.uuid ∈ uuids then null_out s else s) tbl =
      List.filter (fun s => is_cached s && !(decide (s.uuid ∈ uuids))) tbl := by
    apply List.filter_congr
    intro s _
    by_cases hm : s.uuid ∈ uuids
    · simp [Function.comp, if_pos hm, is_cached, null_out, decide_eq_true hm]
    · simp [Function.comp, if_neg hm, decide_eq_false hm]
  rw [hf]
  have hmap : ∀ s ∈ List.filter (fun s => is_cached s && !(decide (s.uuid ∈ uuids))) tbl,
      (if s.uuid ∈ uuids then null_out s else s) = s := by
    intro s hs
    have hp := List.of_mem_filter hs
    simp only [Bool.and_eq_true, Bool.not_eq_true', decide_eq_false_iff_not] at hp
    exact if_neg hp.2
  rw [List.map_congr_left hmap, List.map_id']

/-- Helper: the cached rows not evicted by the cursor loop have the
same total size as the rows the loop never reached. -/
theorem evicted_remaining_size (tbl : List Song) (t : ℤ)
    (hnd : (tbl.map fun s => s.uuid).Nodup) :
    fs_sum (tbl.filter fun s => is_cached s &&
        !(decide (s.uuid ∈
          ((evict_loop t (eviction_candidates tbl) (get_cache_size tbl)).1.map
            fun s => s.uuid)))) =
      fs_sum (evict_loop t (eviction_candidates tbl) (get_cache_size tbl)).2 := by
  set L := evict_loop t (eviction_candidates tbl) (get_cache_size tbl) with hL
  have hperm : (eviction_candidates tbl).Perm (tbl.filter fun s => is_cached s) :=
    List.perm_insertionSort _ _
  have hCR : L.1 ++ L.2 = eviction_candidates tbl := by
    rw [hL]
    exact evict_loop_append t (eviction_candidates tbl) (get_cache_size tbl)
  have hndC : ((eviction_candidates tbl).map fun s => s.uuid).Nodup := by
    have hsubl : ((tbl.filter fun s => is_cached s).map fun s => s.uuid).Sublist
        (tbl.map fun s => s.uuid) := (List.filter_sublist tbl).map _
    exact ((hperm.map fun s => s.uuid).symm).nodup (hsubl.nodup hnd)
  have hdisj : List.Disjoint (L.1.map fun s => s.uuid) (L.2.map fun s => s.uuid) := by
    rw [← hCR, List.map_append] at hndC
    exact List.disjoint_of_nodup_append hndC
  set q : Song → Bool := fun s => !(decide (s.uuid ∈ (L.1.map fun s => s.uuid))) with hq
  have hflip : (tbl.filter fun s => is_cached s && q s) =
      List.filter q (tbl.filter fun s => is_cached s) := by
    rw [List.filter_filter]
    exact List.filter_congr fun s _ => Bool.and_comm _ _
  rw [hflip]
  rw [fs_sum_perm ((hperm.symm).filter q), ← hCR, List.filter_append]
  have hev : List.filter q L.1 = [] := by
    rw [List.filter_eq_nil_iff]
    intro s hs
    simp only [hq, Bool.not_eq_true', decide_eq_false_iff_not, not_not]
    exact List.mem_map_of_mem (fun s => s.uuid) hs
  have hrem : List.filter q L.2 = L.2 := by
    rw [List.filter_eq_self]
    intro s hs
    simp only [hq, Bool.not_eq_true', decide_eq_false_iff_not]
    intro hmem
    exact hdisj hmem (List.mem_map_of_mem (fun s => s.uuid) hs)
  rw [hev, hrem, List.nil_append]

/-- Helper: after an eviction pass with a non-negative target the
cache size is within the target. -/
theorem evict_size_le (tbl : List Song) (t : ℤ) (ht : 0 ≤ t)
    (hnd : (tbl.map fun s => s.uuid).Nodup) :
    get_cache_size (evict_least_played_songs tbl t).2 ≤ t := by
  by_cases h : get_cache_size tbl ≤ t
  · rw [evict_least_played_songs, if_pos h]
    exact h
  · rw [evict_least_played_songs, if_neg h]
    simp only
    rw [cache_size_map_null, evicted_remaining_size tbl t hnd]
    rcases evict_loop_stops t (eviction_candidates tbl) (get_cache_size tbl) with h2 | h2
    · rw [h2]
      simpa [fs_sum] using ht
    · have hsplit : fs_sum (evict_loop t (eviction_candidates tbl) (get_cache_size tbl)).1 +
          fs_sum (evict_loop t (eviction_candidates tbl) (get_cache_size tbl)).2 =
          get_cache_size tbl := by
        rw [← fs_sum_append, evict_loop_append]
        exact fs_sum_perm (List.perm_insertionSort _ _)
      omega

/-- Claim C9: after an eviction pass with target `CACHE_MAX_BYTES`,
the total `filesize_bytes` over rows with non-null `local_path` is at
most `CACHE_MAX_BYTES`; the evicted uuids are those of an initial run
of the candidate list — the cached rows in ascending
`(play_count, last_played_at)` order with null timestamps smallest —
and every row whose uuid was evicted ends with `local_path = NULL`
and `filesize_bytes = NULL`. -/
theorem cache_eviction_pass (tbl : List Song)
    (hnd : (tbl.map fun s => s.uuid).Nodup) :
    get_cache_size (evict_least_played_songs tbl CACHE_MAX_BYTES).2 ≤ CACHE_MAX_BYTES ∧
    List.Sorted eviction_le (eviction_candidates tbl) ∧
    (∃ P R : List Song, eviction_candidates tbl = P ++ R ∧
      (evict_least_played_songs tbl CACHE_MAX_BYTES).1 = P.map fun s => s.uuid) ∧
    (∀ s ∈ (evict_least_played_songs tbl CACHE_MAX_BYTES).2,
      s.uuid ∈ (evict_least_played_songs tbl CACHE_MAX_BYTES).1 →
        s.local_path = none ∧ s.filesize_bytes = none) := by
  refine ⟨evict_size_le tbl CACHE_MAX_BYTES (by norm_num [CACHE_MAX_BYTES]) hnd,
    List.sorted_insertionSort eviction_le _, ?_, ?_⟩
  · by_cases h : get_cache_size tbl ≤ CACHE_MAX_BYTES
    · refine ⟨[], eviction_candidates tbl, rfl, ?_⟩
      rw [evict_least_played_songs, if_pos h]
      rfl
    · refine ⟨(evict_loop CACHE_MAX_BYTES (eviction_candidates tbl) (get_cache_size tbl)).1,
        (evict_loop CACHE_MAX_BYTES (eviction_candidates tbl) (get_cache_size tbl)).2,
        (evict_loop_append _ _ _).symm, ?_⟩
      rw [evict_least_played_songs, if_neg h]
  · intro s hs hmem
    by_cases h : get_cache_size tbl ≤ CACHE_MAX_BYTES
    · rw [evict_least_played_songs, if_pos h] at hmem
      exact absurd hmem (List.not_mem_nil _)
    · rw [evict_least_played_songs, if_neg h] at hs hmem
      simp only at hs hmem
      obtain ⟨s₀, hs₀, rfl⟩ := List.mem_map.mp hs
      by_cases hm : s₀.uuid ∈
          ((evict_loop CACHE_MAX_BYTES (eviction_candidates tbl) (get_cache_size tbl)).1.map
            fun s => s.uuid)
      · rw [if_pos hm]
        exact ⟨rfl, rfl⟩
      · rw [if_neg hm] at hmem ⊢
        exact absurd hmem hm

/-- Concrete two-row table for the C9 witness: 30 GB each, total
60 GB, exceeding the 50 GB budget. -/
def eviction_witness_songs : List Song :=
  [{ uuid := "a", local_path := some "cache/a.mp3", filesize_bytes := some 30000000000,
     play_count := 0, last_played_at := none },
   { uuid := "b", local_path := some "cache/b.mp3", filesize_bytes := some 30000000000,
     play_count := 1, last_played_at := some 5 }]

/-- Witness for C9 on the concrete two-row table. -/
theorem cache_eviction_pass_witness :
    ((eviction_witness_songs.map fun s => s.uuid).Nodup) ∧
    (get_cache_size (evict_least_played_songs eviction_witness_songs CACHE_MAX_BYTES).2 ≤
      CACHE_MAX_BYTES ∧
    List.Sorted eviction_le (eviction_candidates eviction_witness_songs) ∧
    (∃ P R : List Song, eviction_candidates eviction_witness_songs = P ++ R ∧
      (evict_least_played_songs eviction_witness_songs CACHE_MAX_BYTES).1 =
        P.map fun s => s.uuid) ∧
    (∀ s ∈ (evict_least_played_songs eviction_witness_songs CACHE_MAX_BYTES).2,
      s.uuid ∈ (evict_least_played_songs eviction_witness_songs CACHE_MAX_BYTES).1 →
        s.local_path = none ∧ s.filesize_bytes = none)) :=
  ⟨by decide, cache_eviction_pass eviction_witness_songs (by decide)⟩

end AiDj
